import Mathlib

/-!
Shallow embedding of the weather-dashboard repository
(`src/shared-data.js` and the Cloudflare edge-relay worker) in Lean 4.

Modelling conventions:
* JS numbers are embedded as `ℚ` (the code never relies on float rounding
  beyond `Math.round`, `toFixed(5)` and `parseFloat`, which are modelled
  explicitly below).
* Nullable JS values (`null` / missing object fields) are `Option`.
* Rate values travel as strings, exactly as in the source: the per-source
  handlers produce `toFixed(5)` strings and `checkComplete` parses the
  displayed one back with `parseFloat`.
* `Date` construction and weekday lookup are platform services, not code of
  this repository; they are kept abstract (`sunrise`/`sunset` keep the raw
  ISO string, the weekday function is a parameter).
-/

/-- JS `Math.round`: rounds half toward positive infinity. -/
def jsRound (q : ℚ) : ℤ := (q + 1/2).floor

/-- JS `x || d` on an optional numeric field: missing or falsy (zero) values
fall back to the default `d`.  Embeds the `||`-defaulting idiom of
`shared-data.js` (`thresholds.low || 1.1`, `precipitation_probability_max[i] || 0`). -/
def jsOrNum (o : Option ℚ) (d : ℚ) : ℚ :=
  match o with
  | none => d
  | some v => if v = 0 then d else v

/-- Numeric value of a list of decimal digit characters (helper for `parseFloat`). -/
def natOfDigits (cs : List Char) : Option Nat :=
  match cs with
  | [] => none
  | _ =>
    if cs.all Char.isDigit then
      some (cs.foldl (fun a c => a * 10 + (c.toNat - 48)) 0)
    else none

/-- JS `parseFloat` restricted to plain decimal strings (the only inputs the
program ever feeds it: `toFixed(5)` outputs and the literal `0.00000`).
`none` plays the role of `NaN`. -/
def parseFloat (s : String) : Option ℚ :=
  let go : List Char → Option ℚ := fun cs =>
    match cs.splitOn '.' with
    | [ip] => (natOfDigits ip).map (fun n => (n : ℚ))
    | [ip, fp] =>
      match natOfDigits ip, natOfDigits fp with
      | some n, some f => some ((n : ℚ) + (f : ℚ) / (10 : ℚ) ^ fp.length)
      | _, _ => none
    | _ => none
  match s.data with
  | '-' :: cs => (go cs).map (fun q => -q)
  | cs => go cs

/-- JS `x < y` where `x` may be `NaN` (modelled as `none`): any comparison
with `NaN` is false. -/
def jsLt (o : Option ℚ) (y : ℚ) : Bool :=
  match o with
  | some q => decide (q < y)
  | none => false

/-- JS `x > y` where `x` may be `NaN` (modelled as `none`). -/
def jsGt (o : Option ℚ) (y : ℚ) : Bool :=
  match o with
  | some q => decide (q > y)
  | none => false

/-- Left-pad a digit string with zeros to width 5 (fraction part of `toFixed(5)`). -/
def pad5 (s : String) : String :=
  String.mk (List.replicate (5 - s.length) '0') ++ s

/-- JS `Number.prototype.toFixed(5)`: round to 5 decimal places, ties toward
positive infinity, and print with exactly five fraction digits. -/
def toFixed5 (q : ℚ) : String :=
  let n : ℤ := (q * 100000 + 1/2).floor
  let m : Nat := n.natAbs
  (if n < 0 then "-" else "") ++ toString (m / 100000) ++ "." ++ pad5 (toString (m % 100000))

/-- The `getWeatherIcon` function of `shared-data.js`. -/
def getWeatherIcon (code : ℕ) : String :=
  if code = 0 then "☀️"
  else if code ≤ 3 then "☁️"
  else if code ≤ 67 then "🌧️"
  else if code ≤ 77 then "❄️"
  else if code ≤ 99 then "⛈️"
  else "☀️"

/-! ## Currency aggregation (`fetchCurrency` / `checkComplete`) -/

/-- A digested per-source currency result as stored in `results.oxr` /
`results.ecb` / `results.alt`.  The display-only `dateTime` / `date` fields
are not modelled: no later code reads them. -/
structure SRes where
  rate : String
  deriving Repr, DecidableEq, Inhabited

/-- The `results` record shared by the three response handlers. -/
structure CurResults where
  oxr : Option SRes
  ecb : Option SRes
  alt : Option SRes
  deriving Repr, DecidableEq, Inhabited

/-- The thresholds argument of `fetchCurrency`; each bound may be absent. -/
structure Thresholds where
  low : Option ℚ
  high : Option ℚ
  deriving Repr, DecidableEq, Inhabited

/-- The display-ready record `checkComplete` passes to the callback. -/
structure CurrencyOut where
  rate : String
  source : String
  status : String
  details : CurResults
  deriving Repr, DecidableEq, Inhabited

/-- Result construction inside `checkComplete` (the body of the
`completed >= 3` branch of `shared-data.js`). -/
def checkCompleteResult (lowThreshold highThreshold : ℚ) (results : CurResults) : CurrencyOut :=
  let displayRate :=
    match results.oxr with
    | some o => o.rate
    | none =>
      match results.ecb with
      | some e => e.rate
      | none =>
        match results.alt with
        | some a => a.rate
        | none => "0.00000"
  let source :=
    match results.oxr with
    | some _ => "OXR"
    | none =>
      match results.ecb with
      | some _ => "ECB"
      | none =>
        match results.alt with
        | some _ => "Alt"
        | none => ""
  let rateNum := parseFloat displayRate
  let status :=
    if jsLt rateNum lowThreshold then "low"
    else if jsGt rateNum highThreshold then "high"
    else ""
  { rate := displayRate, source := source, status := status, details := results }

/-- How one source request completes: `load` carries the HTTP status and the
`JSON.parse` outcome (`Except.error` = parse exception), `netError` is the
`onerror` path. -/
inductive SourceCompletion (β : Type) where
  | load (status : Nat) (body : Except String β)
  | netError

/-- Parsed JSON body of the openexchangerates.org response (only the fields
the handler reads). -/
structure OxrBody where
  ratesEUR : ℚ
  timestamp : ℤ
  deriving Repr, DecidableEq

/-- Parsed JSON body of the api.frankfurter.app response. -/
structure EcbBody where
  ratesUSD : ℚ
  date : String
  deriving Repr, DecidableEq

/-- Parsed JSON body of the api.exchangerate-api.com response. -/
structure AltBody where
  ratesUSD : ℚ
  deriving Repr, DecidableEq

/-- The `xhr1.onload` / `xhr1.onerror` handler pair for OXR: stores a result
only on HTTP 200 with a successfully parsed body; every failure leaves
`results.oxr` null (the catch block swallows the exception). -/
def oxrHandler (c : SourceCompletion OxrBody) : Option SRes :=
  match c with
  | .netError => none
  | .load status body =>
    if status = 200 then
      match body with
      | .ok b => some { rate := toFixed5 (1 / b.ratesEUR) }
      | .error _ => none
    else none

/-- The `xhr2` handler pair for ECB (frankfurter). -/
def ecbHandler (c : SourceCompletion EcbBody) : Option SRes :=
  match c with
  | .netError => none
  | .load status body =>
    if status = 200 then
      match body with
      | .ok b => some { rate := toFixed5 b.ratesUSD }
      | .error _ => none
    else none

/-- The `xhr3` handler pair for the Alt source (exchangerate-api). -/
def altHandler (c : SourceCompletion AltBody) : Option SRes :=
  match c with
  | .netError => none
  | .load status body =>
    if status = 200 then
      match body with
      | .ok b => some { rate := toFixed5 b.ratesUSD }
      | .error _ => none
    else none

/-- Whole-call model of `fetchCurrency`: given the thresholds and the three
source completions, the value the callback receives, as the pair
(error argument, result record).  The error argument is the literal first
argument of the single `callback(null, {...})` call site. -/
def fetchCurrency (t : Thresholds) (c1 : SourceCompletion OxrBody)
    (c2 : SourceCompletion EcbBody) (c3 : SourceCompletion AltBody) :
    Option String × CurrencyOut :=
  let lowThreshold := jsOrNum t.low (11/10)
  let highThreshold := jsOrNum t.high (12/10)
  let results : CurResults := ⟨oxrHandler c1, ecbHandler c2, altHandler c3⟩
  (none, checkCompleteResult lowThreshold highThreshold results)

/-- One invocation of `checkComplete` on the shared state
(completed counter, number of callback invocations so far): the counter is
incremented first, the callback fires when it has reached three. -/
def checkCompleteStep (s : Nat × Nat) : Nat × Nat :=
  let completed := s.1 + 1
  (completed, s.2 + if 3 ≤ completed then 1 else 0)

/-- State after `n` request completions (each completed request, successful
or not, calls `checkComplete` exactly once: `onload` and `onerror` are
mutually exclusive XHR events and both end in `checkComplete()`). -/
def runCompletions : Nat → Nat × Nat
  | 0 => (0, 0)
  | n + 1 => checkCompleteStep (runCompletions n)

/-! ## Edge relay worker (`src/unnamed/part_000`)

The file holds two revisions of the same Cloudflare worker: the first has no
key injection, the second adds `OPENMETEO_API_KEY` injection and catches URL
parse errors.  Both are embedded.  Platform URL parsing is a parameter
(`parse`); a parsed URL is its hostname plus its query-parameter list. -/

/-- A parsed URL as the worker uses it: hostname and query parameters. -/
structure JSURL where
  hostname : String
  searchParams : List (String × String)
  deriving Repr, DecidableEq, Inhabited

/-- JS `URLSearchParams.set`: replace the first binding of the key and drop
any further bindings of it; append at the end when the key is absent. -/
def setParamList (l : List (String × String)) (k v : String) : List (String × String) :=
  match l with
  | [] => [(k, v)]
  | (k', v') :: rest =>
    if k' = k then (k, v) :: rest.filter (fun p => p.1 != k)
    else (k', v') :: setParamList rest k v

/-- The worker's `finalUrl.searchParams.set('apikey', apiKey)` step. -/
def JSURL.setParam (u : JSURL) (k v : String) : JSURL :=
  { u with searchParams := setParamList u.searchParams k v }

/-- The `allowedDomains` array, identical in both worker revisions. -/
def allowedDomains : List String :=
  ["api.open-meteo.com", "openexchangerates.org", "api.frankfurter.app", "api.exchangerate-api.com"]

/-- Outcome of the worker's request handling up to the upstream fetch:
an own `Response` (status and body text), a forwarded upstream request to
`target`, or an uncaught exception (first revision only, on an unparseable
target URL). -/
inductive RelayOutcome where
  | respond (status : Nat) (msg : String)
  | forward (target : JSURL)
  | thrown
  deriving Repr, DecidableEq

/-- First revision of the worker's `fetch` handler.  `urlParam` is
`url.searchParams.get('url')` of the incoming request; `parse` is the
platform's `new URL(...)` on the target string (`none` = throws). -/
def relayFetchV1 (parse : String → Option JSURL) (urlParam : Option String) : RelayOutcome :=
  match urlParam with
  | none => .respond 400 "Missing url parameter"
  | some t =>
    match parse t with
    | none => .thrown
    | some u =>
      if allowedDomains.contains u.hostname then .forward u
      else .respond 403 "Domain not allowed"

/-- Second revision of the worker's `fetch` handler, with the
`env.OPENMETEO_API_KEY` secret (`none` = not configured) and key injection
for the open-meteo destination. -/
def relayFetchV2 (parse : String → Option JSURL) (env : Option String)
    (urlParam : Option String) : RelayOutcome :=
  match urlParam with
  | none => .respond 400 "Missing url parameter"
  | some t =>
    match parse t with
    | none => .respond 400 "Invalid target URL format"
    | some u =>
      if allowedDomains.contains u.hostname then
        .forward
          (if u.hostname = "api.open-meteo.com" then
            match env with
            | some apiKey => u.setParam ("apikey") apiKey
            | none => u
          else u)
      else .respond 403 "Domain not allowed"

/-! ## Weather fetch (`fetchWeather` of `shared-data.js`) -/

/-- The `current` block of the open-meteo JSON response. -/
structure WeatherCurrent where
  temperature_2m : ℚ
  relative_humidity_2m : ℚ
  apparent_temperature : ℚ
  weather_code : ℕ
  wind_speed_10m : ℚ
  deriving Repr, DecidableEq, Inhabited

/-- The `daily` block of the open-meteo JSON response (`forecast_days=4`).
`precipitation_probability_max` entries may be absent (`null`). -/
structure WeatherDaily where
  time : List String
  sunrise : List String
  sunset : List String
  temperature_2m_max : List ℚ
  temperature_2m_min : List ℚ
  precipitation_probability_max : List (Option ℚ)
  weather_code : List ℕ
  deriving Repr, DecidableEq, Inhabited

/-- A successfully parsed weather response body (no `error`/`reason` field). -/
structure WeatherData where
  current : WeatherCurrent
  daily : WeatherDaily
  deriving Repr, DecidableEq, Inhabited

/-- The `processed.current` record built by `fetchWeather`. -/
structure CurrentOut where
  tempC : ℤ
  tempF : ℤ
  feelsLikeC : ℤ
  feelsLikeF : ℤ
  humidity : ℚ
  windSpeed : ℤ
  weatherCode : ℕ
  icon : String
  deriving Repr, DecidableEq, Inhabited

/-- The `processed.today` record.  `sunrise`/`sunset` keep the raw ISO
string (`new Date(s)` wraps the string without changing its information). -/
structure TodayOut where
  highC : ℤ
  highF : ℤ
  lowC : ℤ
  lowF : ℤ
  rainChance : ℚ
  sunrise : String
  sunset : String
  deriving Repr, DecidableEq, Inhabited

/-- One entry of `processed.forecast`. -/
structure ForecastDay where
  day : String
  highC : ℤ
  highF : ℤ
  lowC : ℤ
  lowF : ℤ
  icon : String
  rainChance : ℚ
  deriving Repr, DecidableEq, Inhabited

/-- The display-ready record `fetchWeather` passes to its callback. -/
structure ProcessedWeather where
  current : CurrentOut
  today : TodayOut
  forecast : List ForecastDay
  deriving Repr, DecidableEq, Inhabited

/-- The reshaping step of `fetchWeather` on a successful response.
`dayName` abstracts `getDayName` (weekday of an ISO date via the platform
`Date`); out-of-range list reads use a default that the well-formedness
hypotheses of the theorems rule out. -/
def fetchWeather (dayName : String → String) (data : WeatherData) : ProcessedWeather :=
  { current :=
      { tempC := jsRound data.current.temperature_2m
        tempF := jsRound (data.current.temperature_2m * 9 / 5 + 32)
        feelsLikeC := jsRound data.current.apparent_temperature
        feelsLikeF := jsRound (data.current.apparent_temperature * 9 / 5 + 32)
        humidity := data.current.relative_humidity_2m
        windSpeed := jsRound data.current.wind_speed_10m
        weatherCode := data.current.weather_code
        icon := getWeatherIcon data.current.weather_code }
    today :=
      { highC := jsRound (data.daily.temperature_2m_max.getD 0 0)
        highF := jsRound (data.daily.temperature_2m_max.getD 0 0 * 9 / 5 + 32)
        lowC := jsRound (data.daily.temperature_2m_min.getD 0 0)
        lowF := jsRound (data.daily.temperature_2m_min.getD 0 0 * 9 / 5 + 32)
        rainChance := jsOrNum (data.daily.precipitation_probability_max.getD 0 none) 0
        sunrise := data.daily.sunrise.getD 0 ""
        sunset := data.daily.sunset.getD 0 "" }
    forecast :=
      (List.range' 1 3).map (fun i =>
        { day := dayName (data.daily.time.getD i "")
          highC := jsRound (data.daily.temperature_2m_max.getD i 0)
          highF := jsRound (data.daily.temperature_2m_max.getD i 0 * 9 / 5 + 32)
          lowC := jsRound (data.daily.temperature_2m_min.getD i 0)
          lowF := jsRound (data.daily.temperature_2m_min.getD i 0 * 9 / 5 + 32)
          icon := getWeatherIcon (data.daily.weather_code.getD i 0)
          rainChance := jsOrNum (data.daily.precipitation_probability_max.getD i none) 0 }) }

/-! ## Helper lemmas -/

/-- Unfolding lemma: the status field of `checkComplete`'s result is the
threshold classification of the parse of its own displayed rate. -/
theorem checkCompleteResult_status (low high : ℚ) (r : CurResults) :
    (checkCompleteResult low high r).status =
      (if jsLt (parseFloat (checkCompleteResult low high r).rate) low then "low"
       else if jsGt (parseFloat (checkCompleteResult low high r).rate) high then "high"
       else "") := rfl

/-- Evaluating the placeholder rate string: `parseFloat '0.00000' = 0`. -/
theorem parseFloat_placeholder : parseFloat "0.00000" = some 0 := by
  have h : parseFloat "0.00000" =
      some (((0 : ℕ) : ℚ) + ((0 : ℕ) : ℚ) / (10 : ℚ) ^ (5 : ℕ)) := rfl
  rw [h]; norm_num

/-- `URLSearchParams.set` with a fresh key appends it at the end. -/
theorem setParamList_of_not_mem (l : List (String × String)) (k v : String)
    (h : ∀ p ∈ l, p.1 ≠ k) : setParamList l k v = l ++ [(k, v)] := by
  induction l with
  | nil => rfl
  | cons p rest ih =>
    have hp : p.1 ≠ k := h p (List.mem_cons_self p rest)
    simp only [setParamList, if_neg hp]
    rw [ih (fun q hq => h q (List.mem_cons_of_mem p hq))]
    simp

/-! ## Claim theorems -/

/-- C1: `fetchCurrency` selects the displayed rate and source label by static
fallback precedence: whenever the OXR result is present its rate is displayed
with source label `OXR`; otherwise, whenever the ECB result is present, its
rate with label `ECB`; otherwise, whenever the Alt result is present, its
rate with label `Alt`. -/
theorem fetchCurrency_precedence (low high : ℚ) (r : CurResults) :
    (∀ s, r.oxr = some s →
      (checkCompleteResult low high r).rate = s.rate ∧
      (checkCompleteResult low high r).source = "OXR") ∧
    (r.oxr = none → ∀ s, r.ecb = some s →
      (checkCompleteResult low high r).rate = s.rate ∧
      (checkCompleteResult low high r).source = "ECB") ∧
    (r.oxr = none → r.ecb = none → ∀ s, r.alt = some s →
      (checkCompleteResult low high r).rate = s.rate ∧
      (checkCompleteResult low high r).source = "Alt") := by
  obtain ⟨o, e, a⟩ := r
  refine ⟨?_, ?_, ?_⟩
  · rintro s rfl
    exact ⟨rfl, rfl⟩
  · rintro rfl s rfl
    exact ⟨rfl, rfl⟩
  · rintro rfl rfl s rfl
    exact ⟨rfl, rfl⟩

/-- Witness for C1 at a concrete results record. -/
theorem fetchCurrency_precedence_witness :
    (checkCompleteResult (11/10) (12/10) ⟨some ⟨"1.08123"⟩, none, some ⟨"1.17000"⟩⟩).rate
      = "1.08123" ∧
    (checkCompleteResult (11/10) (12/10) ⟨some ⟨"1.08123"⟩, none, some ⟨"1.17000"⟩⟩).source
      = "OXR" :=
  (fetchCurrency_precedence (11/10) (12/10)
    ⟨some ⟨"1.08123"⟩, none, some ⟨"1.17000"⟩⟩).1 ⟨"1.08123"⟩ rfl

/-- C2: whenever all three currency sources fail -- in any combination of
failure modes (network error, non-200 status, or parse error), i.e. whenever
every per-source handler leaves its slot null -- `fetchCurrency` still
invokes the callback with a null error and the zero-valued placeholder:
rate `0.00000` and an empty source label. -/
theorem fetchCurrency_all_failed_placeholder (t : Thresholds)
    (c1 : SourceCompletion OxrBody) (c2 : SourceCompletion EcbBody)
    (c3 : SourceCompletion AltBody)
    (h1 : oxrHandler c1 = none) (h2 : ecbHandler c2 = none)
    (h3 : altHandler c3 = none) :
    (fetchCurrency t c1 c2 c3).1 = none ∧
    (fetchCurrency t c1 c2 c3).2.rate = "0.00000" ∧
    (fetchCurrency t c1 c2 c3).2.source = "" := by
  have hfc : (fetchCurrency t c1 c2 c3).2
      = checkCompleteResult (jsOrNum t.low (11/10)) (jsOrNum t.high (12/10))
          ⟨oxrHandler c1, ecbHandler c2, altHandler c3⟩ := rfl
  refine ⟨rfl, ?_, ?_⟩ <;> rw [hfc, h1, h2, h3] <;> rfl

/-- Witness for C2 at a mixed failure combination: a 500 on OXR, a parse
error on ECB, and a network error on Alt. -/
theorem fetchCurrency_all_failed_placeholder_witness :
    oxrHandler (.load 500 (.ok ⟨1, 0⟩)) = none ∧
    ecbHandler (.load 200 (.error ("bad json"))) = none ∧
    altHandler .netError = none ∧
    (fetchCurrency ⟨none, none⟩ (.load 500 (.ok ⟨1, 0⟩))
      (.load 200 (.error ("bad json"))) .netError).1 = none ∧
    (fetchCurrency ⟨none, none⟩ (.load 500 (.ok ⟨1, 0⟩))
      (.load 200 (.error ("bad json"))) .netError).2.rate = "0.00000" ∧
    (fetchCurrency ⟨none, none⟩ (.load 500 (.ok ⟨1, 0⟩))
      (.load 200 (.error ("bad json"))) .netError).2.source = "" := by
  have h := fetchCurrency_all_failed_placeholder ⟨none, none⟩
    (.load 500 (.ok ⟨1, 0⟩)) (.load 200 (.error ("bad json"))) .netError rfl rfl rfl
  exact ⟨rfl, rfl, rfl, h.1, h.2.1, h.2.2⟩

/-- C3: failures of individual sources are swallowed: whatever the three
completions are, the callback's error argument is null, the details record is
exactly the per-source handler outcomes, and every failing completion
(network error, non-200 status, or parse error) leaves its slot null. -/
theorem fetchCurrency_failures_swallowed (t : Thresholds)
    (c1 : SourceCompletion OxrBody) (c2 : SourceCompletion EcbBody)
    (c3 : SourceCompletion AltBody) :
    (fetchCurrency t c1 c2 c3).1 = none ∧
    (fetchCurrency t c1 c2 c3).2.details = ⟨oxrHandler c1, ecbHandler c2, altHandler c3⟩ ∧
    oxrHandler .netError = none ∧ ecbHandler .netError = none ∧ altHandler .netError = none ∧
    (∀ st b, st ≠ 200 → oxrHandler (.load st b) = none) ∧
    (∀ msg, oxrHandler (.load 200 (.error msg)) = none) ∧
    (∀ st b, st ≠ 200 → ecbHandler (.load st b) = none) ∧
    (∀ msg, ecbHandler (.load 200 (.error msg)) = none) ∧
    (∀ st b, st ≠ 200 → altHandler (.load st b) = none) ∧
    (∀ msg, altHandler (.load 200 (.error msg)) = none) := by
  refine ⟨rfl, rfl, rfl, rfl, rfl, ?_, fun msg => rfl, ?_, fun msg => rfl, ?_, fun msg => rfl⟩
  all_goals intro st b h
  · simp [oxrHandler, if_neg h]
  · simp [ecbHandler, if_neg h]
  · simp [altHandler, if_neg h]

/-- Witness for C3: a 404 on the OXR source leaves its slot null. -/
theorem fetchCurrency_failures_swallowed_witness :
    (404 : Nat) ≠ 200 ∧ oxrHandler (.load 404 (.ok ⟨1, 0⟩)) = none :=
  ⟨by decide,
    (fetchCurrency_failures_swallowed ⟨none, none⟩ .netError .netError .netError).2.2.2.2.2.1
      404 (.ok ⟨1, 0⟩) (by decide)⟩

/-- C4: over the three completion events of one `fetchCurrency` call the
shared counter reaches three, the callback has then been invoked exactly
once, and it was never invoked while fewer than three requests had
completed. -/
theorem fetchCurrency_callback_exactly_once :
    (runCompletions 3).1 = 3 ∧ (runCompletions 3).2 = 1 ∧
    ∀ k, k < 3 → (runCompletions k).2 = 0 := by
  refine ⟨rfl, rfl, ?_⟩
  decide

/-- Witness for C4: after two completions the callback has not fired. -/
theorem fetchCurrency_callback_exactly_once_witness :
    (2 : Nat) < 3 ∧ (runCompletions 2).2 = 0 :=
  ⟨by decide, fetchCurrency_callback_exactly_once.2.2 2 (by decide)⟩

/-- C10: `getWeatherIcon` is total on weather codes and maps code 0 to the
sun icon, codes 1-3 to the cloud icon, 4-67 to the rain icon, 68-77 to the
snow icon, 78-99 to the storm icon, and every code above 99 back to the sun
icon. -/
theorem getWeatherIcon_partition (code : ℕ) :
    (code = 0 → getWeatherIcon code = "☀️") ∧
    (1 ≤ code → code ≤ 3 → getWeatherIcon code = "☁️") ∧
    (4 ≤ code → code ≤ 67 → getWeatherIcon code = "🌧️") ∧
    (68 ≤ code → code ≤ 77 → getWeatherIcon code = "❄️") ∧
    (78 ≤ code → code ≤ 99 → getWeatherIcon code = "⛈️") ∧
    (99 < code → getWeatherIcon code = "☀️") := by
  refine ⟨?_, ?_, ?_, ?_, ?_, ?_⟩ <;> intros <;>
    simp only [getWeatherIcon] <;>
    repeat first
      | rw [if_pos (by omega)]
      | rw [if_neg (by omega)]

/-- Witness for C10 at code 70 (snow band). -/
theorem getWeatherIcon_partition_witness :
    (68 : ℕ) ≤ 70 ∧ (70 : ℕ) ≤ 77 ∧ getWeatherIcon 70 = "❄️" :=
  ⟨by decide, by decide, (getWeatherIcon_partition 70).2.2.2.1 (by decide) (by decide)⟩

/-- C5: both revisions of the edge relay allow-list exactly the four
destination hostnames: a request without a `url` parameter gets status 400,
a request whose target URL has a hostname outside the list gets status 403,
and a request is forwarded only when its target hostname is on the list. -/
theorem relay_allowlist (parse : String → Option JSURL) (env : Option String)
    (t : String) (u : JSURL) :
    allowedDomains =
      ["api.open-meteo.com", "openexchangerates.org", "api.frankfurter.app",
       "api.exchangerate-api.com"] ∧
    relayFetchV1 parse none = .respond 400 "Missing url parameter" ∧
    relayFetchV2 parse env none = .respond 400 "Missing url parameter" ∧
    (parse t = some u → allowedDomains.contains u.hostname = false →
      relayFetchV1 parse (some t) = .respond 403 "Domain not allowed" ∧
      relayFetchV2 parse env (some t) = .respond 403 "Domain not allowed") ∧
    (∀ target, relayFetchV1 parse (some t) = .forward target →
      target.hostname ∈ allowedDomains) ∧
    (∀ target, relayFetchV2 parse env (some t) = .forward target →
      target.hostname ∈ allowedDomains) := by
  refine ⟨rfl, rfl, rfl, ?_, ?_, ?_⟩
  · intro hp hc
    have hc' : ¬ allowedDomains.contains u.hostname = true := by rw [hc]; decide
    constructor
    · simp only [relayFetchV1, hp]
      rw [if_neg hc']
    · simp only [relayFetchV2, hp]
      rw [if_neg hc']
  · intro target h
    simp only [relayFetchV1] at h
    split at h
    · cases h
    · split at h
      · rename_i u' hpeq hc
        cases h
        exact List.elem_iff.mp hc
      · cases h
  · intro target h
    simp only [relayFetchV2] at h
    split at h
    · cases h
    · split at h
      · rename_i u' hpeq hc
        cases h
        have hh : (if u'.hostname = "api.open-meteo.com" then
            (match env with
              | some apiKey => u'.setParam ("apikey") apiKey
              | none => u')
          else u').hostname = u'.hostname := by
          by_cases hm : u'.hostname = "api.open-meteo.com"
          · rw [if_pos hm]
            cases env <;> rfl
          · rw [if_neg hm]
        rw [hh]
        exact List.elem_iff.mp hc
      · cases h

/-- Witness for C5: a request targeting an off-list hostname is rejected
with 403 by both revisions. -/
theorem relay_allowlist_witness :
    relayFetchV1 (fun _ => some ⟨"evil.example.com", []⟩) (some "x")
      = .respond 403 "Domain not allowed" ∧
    relayFetchV2 (fun _ => some ⟨"evil.example.com", []⟩) none (some "x")
      = .respond 403 "Domain not allowed" :=
  (relay_allowlist (fun _ => some ⟨"evil.example.com", []⟩) none "x"
    ⟨"evil.example.com", []⟩).2.2.2.1 rfl (by decide)

/-- C6: the second relay revision injects the secret for exactly one
destination: with the secret configured and the target hostname equal to
`api.open-meteo.com`, the forwarded URL is the requested one with the
`apikey` query parameter set (appended at the end when no `apikey` parameter
was present, the hostname unchanged); for every other allow-listed hostname,
and whenever the secret is absent, the target URL is forwarded unchanged. -/
theorem relay_key_injection (parse : String → Option JSURL) (env : Option String)
    (apiKey t : String) (u : JSURL) :
    (parse t = some u → u.hostname = "api.open-meteo.com" →
      relayFetchV2 parse (some apiKey) (some t)
        = .forward (u.setParam ("apikey") apiKey)) ∧
    ((∀ p ∈ u.searchParams, p.1 ≠ "apikey") →
      (u.setParam ("apikey") apiKey).searchParams
        = u.searchParams ++ [("apikey", apiKey)] ∧
      (u.setParam ("apikey") apiKey).hostname = u.hostname) ∧
    (parse t = some u → allowedDomains.contains u.hostname = true →
      u.hostname ≠ "api.open-meteo.com" →
      relayFetchV2 parse env (some t) = .forward u) ∧
    (parse t = some u → allowedDomains.contains u.hostname = true →
      relayFetchV2 parse none (some t) = .forward u) := by
  refine ⟨?_, ?_, ?_, ?_⟩
  · intro hp hm
    simp only [relayFetchV2, hp]
    rw [if_pos (by rw [hm]; decide), if_pos hm]
  · intro hfresh
    exact ⟨setParamList_of_not_mem u.searchParams ("apikey") apiKey hfresh, rfl⟩
  · intro hp hc hm
    simp only [relayFetchV2, hp]
    rw [if_pos hc, if_neg hm]
  · intro hp hc
    simp only [relayFetchV2, hp]
    rw [if_pos hc]
    by_cases hm : u.hostname = "api.open-meteo.com"
    · rw [if_pos hm]
    · rw [if_neg hm]

/-- Witness for C6: with the secret configured, an open-meteo request gains
exactly the `apikey` parameter at the end of its query. -/
theorem relay_key_injection_witness :
    relayFetchV2 (fun _ => some ⟨"api.open-meteo.com", [("latitude", "1")]⟩)
        (some "SECRET") (some "x")
      = .forward (JSURL.setParam ⟨"api.open-meteo.com", [("latitude", "1")]⟩ ("apikey") "SECRET") ∧
    (JSURL.setParam ⟨"api.open-meteo.com", [("latitude", "1")]⟩ ("apikey") "SECRET").searchParams
      = [("latitude", "1"), ("apikey", "SECRET")] :=
  ⟨(relay_key_injection (fun _ => some ⟨"api.open-meteo.com", [("latitude", "1")]⟩)
      none "SECRET" "x" ⟨"api.open-meteo.com", [("latitude", "1")]⟩).1 rfl rfl,
    ((relay_key_injection (fun _ => some ⟨"api.open-meteo.com", [("latitude", "1")]⟩)
      none "SECRET" "x" ⟨"api.open-meteo.com", [("latitude", "1")]⟩).2.1 (by decide)).1⟩

/-- C7: on every successful weather response (with the four forecast days the
query requests), `fetchWeather` produces a three-part display record: current
conditions, today's high/low with sunrise and sunset, and a forecast list of
exactly three later days (daily indices 1 through 3); every Celsius
temperature is rounded to the nearest integer and every Fahrenheit
temperature is the rounding of `celsius * 9/5 + 32`. -/
theorem fetchWeather_display_shape (dayName : String → String) (data : WeatherData)
    (hmax : 4 ≤ data.daily.temperature_2m_max.length)
    (hmin : 4 ≤ data.daily.temperature_2m_min.length)
    (hsr : 1 ≤ data.daily.sunrise.length)
    (hss : 1 ≤ data.daily.sunset.length) :
    (fetchWeather dayName data).forecast.length = 3 ∧
    (fetchWeather dayName data).current.tempC = jsRound data.current.temperature_2m ∧
    (fetchWeather dayName data).current.tempF
      = jsRound (data.current.temperature_2m * 9 / 5 + 32) ∧
    (fetchWeather dayName data).current.feelsLikeC
      = jsRound data.current.apparent_temperature ∧
    (fetchWeather dayName data).current.feelsLikeF
      = jsRound (data.current.apparent_temperature * 9 / 5 + 32) ∧
    (fetchWeather dayName data).today.highC
      = jsRound data.daily.temperature_2m_max[0] ∧
    (fetchWeather dayName data).today.highF
      = jsRound (data.daily.temperature_2m_max[0] * 9 / 5 + 32) ∧
    (fetchWeather dayName data).today.lowC
      = jsRound data.daily.temperature_2m_min[0] ∧
    (fetchWeather dayName data).today.lowF
      = jsRound (data.daily.temperature_2m_min[0] * 9 / 5 + 32) ∧
    (fetchWeather dayName data).today.sunrise = data.daily.sunrise[0] ∧
    (fetchWeather dayName data).today.sunset = data.daily.sunset[0] ∧
    ∀ j, (hj : j < 3) →
      ((fetchWeather dayName data).forecast.getD j default).highC
        = jsRound data.daily.temperature_2m_max[j + 1] ∧
      ((fetchWeather dayName data).forecast.getD j default).highF
        = jsRound (data.daily.temperature_2m_max[j + 1] * 9 / 5 + 32) ∧
      ((fetchWeather dayName data).forecast.getD j default).lowC
        = jsRound data.daily.temperature_2m_min[j + 1] ∧
      ((fetchWeather dayName data).forecast.getD j default).lowF
        = jsRound (data.daily.temperature_2m_min[j + 1] * 9 / 5 + 32) := by
  have hget : ∀ (l : List ℚ) (i : Nat), ∀ h : i < l.length, l.getD i 0 = l[i] := by
    intro l i h
    simp [List.getD_eq_getElem?_getD, List.getElem?_eq_getElem h]
  have hgets : ∀ (l : List String), ∀ h : 0 < l.length, l.getD 0 "" = l[0] := by
    intro l h
    simp [List.getD_eq_getElem?_getD, List.getElem?_eq_getElem h]
  have e1 := hget data.daily.temperature_2m_max
  have e2 := hget data.daily.temperature_2m_min
  refine ⟨by simp [fetchWeather], rfl, rfl, rfl, rfl,
    ?_, ?_, ?_, ?_, ?_, ?_, ?_⟩
  · exact congrArg jsRound (e1 0 (by omega))
  · exact congrArg jsRound (by rw [e1 0 (by omega)])
  · exact congrArg jsRound (e2 0 (by omega))
  · exact congrArg jsRound (by rw [e2 0 (by omega)])
  · exact hgets _ (by omega)
  · exact hgets _ (by omega)
  · intro j hj
    interval_cases j <;>
      refine ⟨?_, ?_, ?_, ?_⟩ <;>
      simp only [fetchWeather, show List.range' 1 3 = [1, 2, 3] from rfl,
        List.map_cons, List.map_nil, List.getD_cons_zero, List.getD_cons_succ] <;>
      first
        | rw [e1 1 (by omega)] | rw [e1 2 (by omega)] | rw [e1 3 (by omega)]
        | rw [e2 1 (by omega)] | rw [e2 2 (by omega)] | rw [e2 3 (by omega)]

/-- Witness for C7 at a concrete four-day response. -/
theorem fetchWeather_display_shape_witness :
    4 ≤ ([1, 2, 3, 4] : List ℚ).length ∧
    (fetchWeather (fun _ => "Mon")
      ⟨⟨20, 50, 21, 0, 5⟩,
       ⟨["d0", "d1", "d2", "d3"], ["r0"], ["s0"], [1, 2, 3, 4], [0, 1, 2, 3],
        [none, none, none, none], [0, 0, 0, 0]⟩⟩).forecast.length = 3 :=
  ⟨by decide,
    (fetchWeather_display_shape (fun _ => "Mon")
      ⟨⟨20, 50, 21, 0, 5⟩,
       ⟨["d0", "d1", "d2", "d3"], ["r0"], ["s0"], [1, 2, 3, 4], [0, 1, 2, 3],
        [none, none, none, none], [0, 0, 0, 0]⟩⟩
      (by decide) (by decide) (by decide) (by decide)).1⟩

/-- C8: missing fields are defaulted: a missing or falsy
`precipitation_probability_max` entry yields `rainChance = 0` (for today and
for each forecast day), and a missing or falsy `thresholds.low` /
`thresholds.high` defaults to 1.1 / 1.2 (the resolution `fetchCurrency`
applies to its thresholds argument). -/
theorem field_defaulting (dayName : String → String) (data : WeatherData) :
    ((data.daily.precipitation_probability_max.getD 0 none = none ∨
      data.daily.precipitation_probability_max.getD 0 none = some 0) →
      (fetchWeather dayName data).today.rainChance = 0) ∧
    (∀ j, j < 3 →
      (data.daily.precipitation_probability_max.getD (j + 1) none = none ∨
       data.daily.precipitation_probability_max.getD (j + 1) none = some 0) →
      ((fetchWeather dayName data).forecast.getD j default).rainChance = 0) ∧
    (∀ t : Thresholds, (t.low = none ∨ t.low = some 0) →
      jsOrNum t.low (11/10) = 11/10) ∧
    (∀ t : Thresholds, (t.high = none ∨ t.high = some 0) →
      jsOrNum t.high (12/10) = 12/10) := by
  refine ⟨?_, ?_, ?_, ?_⟩
  · rintro (h | h) <;>
      rw [List.getD_eq_getElem?_getD] at h <;>
      simp [fetchWeather, jsOrNum, h]
  · intro j hj h
    interval_cases j <;> norm_num at h <;> rcases h with h | h <;>
      simp only [fetchWeather, show List.range' 1 3 = [1, 2, 3] from rfl,
        List.map_cons, List.map_nil, List.getD_cons_zero, List.getD_cons_succ] <;>
      simp [h, jsOrNum]
  · rintro t (h | h) <;> simp [jsOrNum, h]
  · rintro t (h | h) <;> simp [jsOrNum, h]

/-- Witness for C8: a falsy first precipitation entry yields `rainChance 0`,
and absent thresholds resolve to the defaults. -/
theorem field_defaulting_witness :
    (fetchWeather (fun _ => "Mon")
      ⟨⟨20, 50, 21, 0, 5⟩,
       ⟨["d0"], ["r0"], ["s0"], [1], [0], [some 0, none], [0]⟩⟩).today.rainChance = 0 ∧
    jsOrNum (Thresholds.mk none none).low (11/10) = 11/10 ∧
    jsOrNum (Thresholds.mk none none).high (12/10) = 12/10 :=
  ⟨(field_defaulting (fun _ => "Mon")
      ⟨⟨20, 50, 21, 0, 5⟩,
       ⟨["d0"], ["r0"], ["s0"], [1], [0], [some 0, none], [0]⟩⟩).1 (Or.inr rfl),
    (field_defaulting (fun _ => "Mon")
      ⟨⟨20, 50, 21, 0, 5⟩,
       ⟨["d0"], ["r0"], ["s0"], [1], [0], [some 0, none], [0]⟩⟩).2.2.1
      ⟨none, none⟩ (Or.inl rfl),
    (field_defaulting (fun _ => "Mon")
      ⟨⟨20, 50, 21, 0, 5⟩,
       ⟨["d0"], ["r0"], ["s0"], [1], [0], [some 0, none], [0]⟩⟩).2.2.2
      ⟨none, none⟩ (Or.inl rfl)⟩

/-- Counterexample to C9 as stated: with caller thresholds low = 1 and
high = -1 and all sources failed, the displayed rate parses to 0, which is
strictly above the high threshold, yet the status is `low`, not `high` (the
`low` branch shadows the `high` branch). -/
theorem fetchCurrency_status_claim_counterexample :
    (fetchCurrency ⟨some 1, some (-1)⟩ .netError .netError .netError).2.status = "low" ∧
    ¬ ((fetchCurrency ⟨some 1, some (-1)⟩ .netError .netError .netError).2.status = "high" ↔
        jsGt (parseFloat (fetchCurrency ⟨some 1, some (-1)⟩
            .netError .netError .netError).2.rate)
          (jsOrNum (Thresholds.mk (some 1) (some (-1))).high (12/10)) = true) := by
  have hrate : (fetchCurrency ⟨some 1, some (-1)⟩
      .netError .netError .netError).2.rate = "0.00000" := rfl
  have hfc : (fetchCurrency ⟨some 1, some (-1)⟩ .netError .netError .netError).2
      = checkCompleteResult (jsOrNum (some 1) (11/10)) (jsOrNum (some (-1)) (12/10))
          ⟨none, none, none⟩ := rfl
  have hstat : (fetchCurrency ⟨some 1, some (-1)⟩
      .netError .netError .netError).2.status = "low" := by
    rw [hfc, checkCompleteResult_status]
    have hr2 : (checkCompleteResult (jsOrNum (some 1) (11/10)) (jsOrNum (some (-1)) (12/10))
        (⟨none, none, none⟩ : CurResults)).rate = "0.00000" := rfl
    rw [hr2, parseFloat_placeholder]
    rw [if_pos]
    have h1 : jsOrNum (some (1 : ℚ)) (11/10) = 1 := by simp [jsOrNum]
    rw [h1]
    norm_num [jsLt]
  refine ⟨hstat, ?_⟩
  intro hiff
  have h1 : jsGt (parseFloat (fetchCurrency ⟨some 1, some (-1)⟩
      .netError .netError .netError).2.rate)
      (jsOrNum (Thresholds.mk (some 1) (some (-1))).high (12/10)) = true := by
    rw [hrate, parseFloat_placeholder]
    have h2 : jsOrNum (Thresholds.mk (some (1 : ℚ)) (some (-1))).high (12/10) = -1 := by
      simp [jsOrNum]
    rw [h2]
    norm_num [jsGt]
  have h3 := hiff.mpr h1
  rw [hstat] at h3
  exact absurd h3 (by decide)

/-- C9 (amended): the status is `low` exactly when the parsed displayed rate
is strictly below the low threshold; `high` exactly when it is not strictly
below the low threshold and is strictly above the high threshold; empty
otherwise; and the all-sources-failed placeholder rate `0.00000` is
classified `low` under the default thresholds. -/
theorem fetchCurrency_status_classification (t : Thresholds)
    (c1 : SourceCompletion OxrBody) (c2 : SourceCompletion EcbBody)
    (c3 : SourceCompletion AltBody) :
    ((fetchCurrency t c1 c2 c3).2.status = "low" ↔
      jsLt (parseFloat (fetchCurrency t c1 c2 c3).2.rate) (jsOrNum t.low (11/10)) = true) ∧
    ((fetchCurrency t c1 c2 c3).2.status = "high" ↔
      (jsLt (parseFloat (fetchCurrency t c1 c2 c3).2.rate) (jsOrNum t.low (11/10)) = false ∧
       jsGt (parseFloat (fetchCurrency t c1 c2 c3).2.rate) (jsOrNum t.high (12/10)) = true)) ∧
    ((fetchCurrency t c1 c2 c3).2.status = "" ↔
      (jsLt (parseFloat (fetchCurrency t c1 c2 c3).2.rate) (jsOrNum t.low (11/10)) = false ∧
       jsGt (parseFloat (fetchCurrency t c1 c2 c3).2.rate) (jsOrNum t.high (12/10)) = false)) ∧
    (fetchCurrency ⟨none, none⟩ .netError .netError .netError).2.status = "low" := by
  have hfc : (fetchCurrency t c1 c2 c3).2
      = checkCompleteResult (jsOrNum t.low (11/10)) (jsOrNum t.high (12/10))
          ⟨oxrHandler c1, ecbHandler c2, altHandler c3⟩ := rfl
  have hne1 : ("low" : String) ≠ "high" := by decide
  have hne2 : ("low" : String) ≠ "" := by decide
  have hne3 : ("high" : String) ≠ "low" := by decide
  have hne4 : ("high" : String) ≠ "" := by decide
  have hne5 : ("" : String) ≠ "low" := by decide
  have hne6 : ("" : String) ≠ "high" := by decide
  refine ⟨?_, ?_, ?_, ?_⟩
  · rw [hfc, checkCompleteResult_status, ← hfc]
    cases hL : jsLt (parseFloat (fetchCurrency t c1 c2 c3).2.rate) (jsOrNum t.low (11/10)) <;>
      cases hG : jsGt (parseFloat (fetchCurrency t c1 c2 c3).2.rate) (jsOrNum t.high (12/10)) <;>
      simp [hL, hG, hne1, hne3, hne5]
  · rw [hfc, checkCompleteResult_status, ← hfc]
    cases hL : jsLt (parseFloat (fetchCurrency t c1 c2 c3).2.rate) (jsOrNum t.low (11/10)) <;>
      cases hG : jsGt (parseFloat (fetchCurrency t c1 c2 c3).2.rate) (jsOrNum t.high (12/10)) <;>
      simp [hL, hG, hne1, hne4, hne6]
  · rw [hfc, checkCompleteResult_status, ← hfc]
    cases hL : jsLt (parseFloat (fetchCurrency t c1 c2 c3).2.rate) (jsOrNum t.low (11/10)) <;>
      cases hG : jsGt (parseFloat (fetchCurrency t c1 c2 c3).2.rate) (jsOrNum t.high (12/10)) <;>
      simp [hL, hG, hne2, hne5, hne6]
  · have hd : (fetchCurrency ⟨none, none⟩ .netError .netError .netError).2
        = checkCompleteResult (11/10) (12/10) ⟨none, none, none⟩ := rfl
    rw [hd, checkCompleteResult_status]
    have hr : (checkCompleteResult (11/10) (12/10)
        (⟨none, none, none⟩ : CurResults)).rate = "0.00000" := rfl
    rw [hr, parseFloat_placeholder]
    rw [if_pos]
    norm_num [jsLt]
